import Mathlib

/-!
Shallow embedding of the `word-press-render` repository:
  * `src/maat/frontend/server/ai-router.ts` (`routeAIRequest`)
  * `src/maat/frontend/server/strategist.ts` (`askStrategist`)
  * `src/maat/frontend/production-crm-dashboard.tsx` (`askQwen`, `wpFetch`,
    `fetchData` settle-all merge, contacts change-feed reducer)
  * `src/unnamed/part_001` (checkout `handler`)
  * `src/unnamed/part_000` (`EnterpriseCRMIntegration::create_contact`)
External calls (axios/fetch/supabase/stripe) are modelled as oracle
functions passed in as parameters; side effects are recorded in traces.
-/

namespace WordPressRender

/-! AI router (`ai-router.ts`, `qwen.ts`, `strategist.ts`) -/

/-- The request shape `{ userId, input, language? }` of `ai-router.ts`. -/
structure AIRequest where
  userId : String
  input : String
  language : Option String
deriving DecidableEq, Repr

/-- ASCII case folding of a character code, as the `/i` regex flag applies it
to the literal keyword alternatives. -/
def lowerCode (c : Char) : Nat :=
  if 65 ≤ c.toNat ∧ c.toNat ≤ 90 then c.toNat + 32 else c.toNat

/-- Does the code list `s` start with the code list `p`? -/
def startsWithCodes : List Nat → List Nat → Bool
  | _, [] => true
  | [], _ :: _ => false
  | c :: cs, p :: ps => c == p && startsWithCodes cs ps

/-- Does the code list `s` contain `pat` as a contiguous run? -/
def containsCodes : List Nat → List Nat → Bool
  | [], pat => pat.isEmpty
  | s@(_ :: rest), pat => startsWithCodes s pat || containsCodes rest pat

/-- The alternatives of the regex `/strategy|plan|sequence|long-form|campaign/i`
in `ai-router.ts` line 16. -/
def keywordList : List String :=
  ["strategy", "plan", "sequence", "long-form", "campaign"]

/-- `input.match(/strategy|plan|sequence|long-form|campaign/i)` is truthy,
i.e. the case-folded input contains one of the case-folded literal
alternatives as a contiguous run. -/
def matchesKeyword (input : String) : Bool :=
  keywordList.any (fun k =>
    containsCodes (input.data.map lowerCode) (k.data.map lowerCode))

/-- The guard of the fast path in `routeAIRequest`:
`input.length < 280 && !input.match(/.../i)`. -/
def isFastPath (input : String) : Bool :=
  decide (input.length < 280) && !(matchesKeyword input)

/-- Which upstream model backend was invoked. -/
inductive Backend
  | qwen
  | strategist
deriving DecidableEq, Repr

/-- The JSON body both helpers POST to `http://localhost:11434/api/generate`. -/
structure InferencePayload where
  model : String
  prompt : String
  stream : Bool
deriving DecidableEq, Repr

/-- The payload `askQwen` sends: model `qwen:0.5b`, prompt
`Respond in {language}. {input}` with `language` defaulting to `en`. -/
def qwenPayload (req : AIRequest) : InferencePayload :=
  { model := "qwen:0.5b"
    prompt := "Respond in " ++ req.language.getD "en" ++ ". " ++ req.input
    stream := false }

/-- The payload `askStrategist` sends: model `mixtral`, same prompt shape. -/
def strategistPayload (req : AIRequest) : InferencePayload :=
  { model := "mixtral"
    prompt := "Respond in " ++ req.language.getD "en" ++ ". " ++ req.input
    stream := false }

/-- Outcome of one POST to the inference endpoint: `none` means the call threw
(network failure, non-2xx, ...); `some none` means the reply had no `response`
field; `some (some r)` means the reply carried `response = r`. -/
abbrev InferenceOracle := InferencePayload → Option (Option String)

/-- `askQwen` from `production-crm-dashboard.tsx` lines 915-935: POST the
payload, return the reply field `response.data.response` or the fallback string (No response from Qwen.), or the string (Qwen unavailable.) when the call throws. The second component is the
payload that was sent. -/
def askQwen (endpoint : InferenceOracle) (req : AIRequest) : String × InferencePayload :=
  let payload := qwenPayload req
  (match endpoint payload with
    | none => "Qwen unavailable."
    | some none => "No response from Qwen."
    | some (some r) => if r.isEmpty then "No response from Qwen." else r,
   payload)

/-- `askStrategist` from `strategist.ts` lines 5-25: POST the payload, return
the reply field `response.data.response` or the fallback string (No response from strategist.), or the string (Strategist unavailable.) when the call throws. -/
def askStrategist (endpoint : InferenceOracle) (req : AIRequest) : String × InferencePayload :=
  let payload := strategistPayload req
  (match endpoint payload with
    | none => "Strategist unavailable."
    | some none => "No response from strategist."
    | some (some r) => if r.isEmpty then "No response from strategist." else r,
   payload)

/-- `routeAIRequest` from `ai-router.ts` lines 12-24, with the two imported
helpers abstracted as functions. The second component is the trace of backend
calls, in order. -/
def routeAIRequest (qwenBackend strategistBackend : AIRequest → String)
    (req : AIRequest) : String × List Backend :=
  if isFastPath req.input then
    ("[Qwen] " ++ qwenBackend req, [Backend.qwen])
  else
    ("[Strategist] " ++ strategistBackend req, [Backend.strategist])

/-- `routeAIRequest` with the real `askQwen`/`askStrategist` plugged in,
over an oracle for the inference endpoint. -/
def routeAIRequestFull (endpoint : InferenceOracle) (req : AIRequest) :
    String × List Backend :=
  routeAIRequest (fun r => (askQwen endpoint r).1)
    (fun r => (askStrategist endpoint r).1) req

/-! Dashboard contacts change-feed reducer
(`production-crm-dashboard.tsx` lines 228-256) -/

/-- A row of the `contacts` table, reduced to its identity and a stand-in for
the remaining columns (so that two rows with the same id can differ). -/
structure Contact where
  id : Nat
  fields : String
deriving DecidableEq, Repr

/-- A Supabase `postgres_changes` payload: `eventType`, `old`, `new`.
`old`/`new` are `Option` because the code reads them with optional chaining
(`payload.old?.id`, `payload.new?.id`). -/
structure ChangePayload where
  eventType : String
  old : Option Contact
  new : Option Contact
deriving DecidableEq, Repr

/-- The state update applied for one change event. DELETE filters by
`c.id !== payload.old?.id` (when `old` is absent, `undefined` differs from
every id, so nothing is removed); INSERT builds
`[payload.new, ...contacts.slice(0, 99)]`; UPDATE maps
`c.id === payload.new?.id ? payload.new : c` (when `new` is absent the
comparison is never true); any other event type returns the state unchanged. -/
def applyContactsEvent (prev : List Contact) (p : ChangePayload) : List Contact :=
  if p.eventType = "DELETE" then
    match p.old with
    | some o => prev.filter (fun c => c.id ≠ o.id)
    | none => prev
  else if p.eventType = "INSERT" then
    match p.new with
    | some n => n :: prev.take 99
    | none => prev.take 99
  else if p.eventType = "UPDATE" then
    match p.new with
    | some n => prev.map (fun c => if c.id = n.id then n else c)
    | none => prev
  else
    prev

/-! Checkout handler (`src/unnamed/part_001`) -/

/-- A row of the `bots` table, with the columns the handler reads. -/
structure Bot where
  id : Nat
  title : String
  description : String
  price : Int
deriving DecidableEq, Repr

/-- One element of the Stripe `line_items` array. -/
structure LineItem where
  currency : String
  product_name : String
  product_description : String
  unit_amount : Int
  quantity : Nat
deriving DecidableEq, Repr

/-- The `stripe.checkout.sessions.create` payload built by the handler. -/
structure CheckoutSession where
  payment_method_types : List String
  line_items : List LineItem
  mode : String
  success_url : String
  cancel_url : String
  metadata_bot_id : Nat
  metadata_user_id : String
deriving DecidableEq, Repr

/-- The session payload of `src/unnamed/part_001` lines 12-29: one card line
item in USD with `unit_amount = bot.price * 100`, payment mode, fixed
success/cancel URLs, and `{bot_id, user_id}` metadata. -/
def checkoutSessionFor (bot : Bot) (bot_id : Nat) (user_id : String) : CheckoutSession :=
  { payment_method_types := ["card"]
    line_items := [{ currency := "usd"
                     product_name := bot.title
                     product_description := bot.description
                     unit_amount := bot.price * 100
                     quantity := 1 }]
    mode := "payment"
    success_url := "https://zapscout.io/success?session_id={CHECKOUT_SESSION_ID}"
    cancel_url := "https://zapscout.io/cancel"
    metadata_bot_id := bot_id
    metadata_user_id := user_id }

/-- The checkout `handler`: the lookup `eq(id, bot_id).single()` yields the first
matching row or null; the code then reads `bot.title` with no null check, so
a missing row throws a TypeError and no response is sent — modelled as
`none`. A found row yields the session payload passed to Stripe. -/
def handler (bots : List Bot) (bot_id : Nat) (user_id : String) :
    Option CheckoutSession :=
  match bots.find? (fun b => b.id == bot_id) with
  | none => none
  | some bot => some (checkoutSessionFor bot bot_id user_id)

/-! Lead endpoint (`src/unnamed/part_000`, `create_contact`) -/

/-- PHP `empty()` on a request field that is either absent or a string:
true for a missing key, the empty string and the string `"0"`. -/
def phpEmpty : Option String → Bool
  | none => true
  | some s => s == "" || s == "0"

/-- The JSON parameters `create_contact` reads (the fields beyond the two
required ones are defaulted with `??` and do not affect control flow). -/
structure LeadParams where
  email : Option String
  first_name : Option String
deriving DecidableEq, Repr

/-- Observable side effects of `create_contact` on the store and the webhook. -/
inductive CrmEffect
  | updatedContact (contact_id : Nat)
  | insertedContact (email : String)
  | webhook (event : String) (contact_id : Nat)
deriving DecidableEq, Repr

/-- The REST reply of `create_contact`. -/
inductive LeadResponse
  | err (code : String) (status : Nat)
  | success (contact_id : Nat) (status : Nat)
deriving DecidableEq, Repr

/-- `create_contact` (`src/unnamed/part_000` lines 274-361): reject with a
400 `WP_Error` when the PHP `empty()` guard fires on the email field or the
first_name field,
before any lookup or write; otherwise update the contact found by email or
insert a new one (`wp_insert_post` returning `newId`), then fire the
`lead_created` webhook and reply 201. The second component traces the
store/webhook effects in order. -/
def create_contact (existingByEmail : String → Option Nat) (newId : Nat)
    (p : LeadParams) : LeadResponse × List CrmEffect :=
  if phpEmpty p.email || phpEmpty p.first_name then
    (LeadResponse.err "missing_required_fields" 400, [])
  else
    let email := p.email.getD ""
    match existingByEmail email with
    | some cid =>
        (LeadResponse.success cid 201,
         [CrmEffect.updatedContact cid, CrmEffect.webhook "lead_created" cid])
    | none =>
        (LeadResponse.success newId 201,
         [CrmEffect.insertedContact email, CrmEffect.webhook "lead_created" newId])

/-! Retry loop `wpFetch` (`production-crm-dashboard.tsx` lines 104-156) -/

/-- Outcome of one `fetch` attempt: the call threw a network error, the 10 s
abort timer fired (`AbortError`), or an HTTP response arrived with a status,
a flag for a JSON content type, and a parsed body. -/
inductive FetchOutcome
  | netError
  | timeout
  | response (status : Nat) (isJson : Bool) (body : String)
deriving DecidableEq, Repr

/-- What `wpFetch` resolves to: the parsed JSON body, or a thrown error. -/
inductive WpResult
  | ok (body : String)
  | err (msg : String)
deriving DecidableEq, Repr

/-- `response.ok`: status in the 200-299 range. -/
def httpOk (status : Nat) : Bool :=
  decide (200 ≤ status) && decide (status ≤ 299)

/-- One trip of the `for (let i = 0; i <= retries; i++)` loop of `wpFetch`,
with the attempt outcomes given by an oracle indexed by `i`, and the list of
backoff waits (in milliseconds) performed. Errors thrown inside the `try`
(non-ok statuses, non-JSON bodies) land in the `catch`, which rethrows only
on the last attempt or for an `AbortError`; otherwise the loop continues
with no wait. A non-ok 5xx status before the last attempt instead waits
`2^i * 1000` ms and continues. `fuel` bounds the recursion; the loop body
runs at most `retries + 1` times. -/
def wpFetchAux (outcomes : Nat → FetchOutcome) (retries : Nat) :
    Nat → Nat → WpResult × List Nat
  | _, 0 => (WpResult.err "loop exhausted", [])
  | i, fuel + 1 =>
    match outcomes i with
    | FetchOutcome.netError =>
        if i = retries then (WpResult.err "network error", [])
        else wpFetchAux outcomes retries (i + 1) fuel
    | FetchOutcome.timeout =>
        if i = retries then (WpResult.err "AbortError", [])
        else (WpResult.err "Request timeout", [])
    | FetchOutcome.response status isJson body =>
        if httpOk status then
          if isJson then (WpResult.ok body, [])
          else if i = retries then (WpResult.err "Invalid response format", [])
          else wpFetchAux outcomes retries (i + 1) fuel
        else
          if 500 ≤ status ∧ i < retries then
            let rest := wpFetchAux outcomes retries (i + 1) fuel
            (rest.1, 2 ^ i * 1000 :: rest.2)
          else if i = retries then
            (WpResult.err ("HTTP " ++ toString status), [])
          else wpFetchAux outcomes retries (i + 1) fuel

/-- `wpFetch` with its default `retries = 3`: four attempts starting at
`i = 0`. -/
def wpFetch (outcomes : Nat → FetchOutcome) : WpResult × List Nat :=
  wpFetchAux outcomes 3 0 4

/-! Dashboard settle-all fetch (`production-crm-dashboard.tsx` 184-196) -/

/-- The WordPress slice of the dashboard state. Campaigns and funnels are
lists of records; analytics is a JSON object, modelled as key/value pairs. -/
structure WpData where
  campaigns : List String
  funnels : List String
  analytics : List (String × String)
deriving DecidableEq, Repr

/-- The `Promise.allSettled([...]).then(results => ...)` merge of `fetchData`:
each of the three `wpFetch` calls settles to `some value` (fulfilled) or
`none` (rejected), and a rejected one is replaced by its empty default
(`[]` for campaigns and funnels, `{}` for analytics). -/
def settleWpResults (camp funl : Option (List String))
    (anal : Option (List (String × String))) : WpData :=
  { campaigns := camp.getD []
    funnels := funl.getD []
    analytics := anal.getD [] }

/-! Theorems -/

/-- C1: for every request whose input is shorter than 280 characters and does
not match the case-insensitive keyword regex, `routeAIRequest` calls the fast
backend exactly once (the call trace is `[Backend.qwen]`, so the deep backend
is never called) and returns the fast reply prefixed with the Qwen tag. -/
theorem routeAIRequest_fast_path (qwenBackend strategistBackend : AIRequest → String)
    (req : AIRequest) (hlen : req.input.length < 280)
    (hkw : matchesKeyword req.input = false) :
    routeAIRequest qwenBackend strategistBackend req =
      ("[Qwen] " ++ qwenBackend req, [Backend.qwen]) := by
  simp [routeAIRequest, isFastPath, hkw, hlen]

/-- Witness for C1 at the concrete request with input `hello`. -/
theorem routeAIRequest_fast_path_witness :
    ("hello" : String).length < 280 ∧ matchesKeyword "hello" = false ∧
    routeAIRequest (fun _ => "hi") (fun _ => "deep")
        { userId := "u1", input := "hello", language := none } =
      ("[Qwen] hi", [Backend.qwen]) :=
  ⟨by decide, by decide,
   routeAIRequest_fast_path (fun _ => "hi") (fun _ => "deep")
     { userId := "u1", input := "hello", language := none } (by decide) (by decide)⟩

/-- C2: for every request whose input has length at least 280 or matches the
case-insensitive keyword regex, `routeAIRequest` calls the deep backend (the
call trace is `[Backend.strategist]`, so the fast backend is never called)
and returns the deep reply prefixed with the Strategist tag. -/
theorem routeAIRequest_deep_path (qwenBackend strategistBackend : AIRequest → String)
    (req : AIRequest)
    (h : 280 ≤ req.input.length ∨ matchesKeyword req.input = true) :
    routeAIRequest qwenBackend strategistBackend req =
      ("[Strategist] " ++ strategistBackend req, [Backend.strategist]) := by
  have hfast : isFastPath req.input = false := by
    unfold isFastPath
    rcases h with h | h
    · have hx : ¬ req.input.length < 280 := Nat.not_lt.mpr h
      simp [hx]
    · simp [h]
  simp [routeAIRequest, hfast]

/-- Witness for C2 at the concrete request with input `plan my day`
(short, but matching the keyword `plan`). -/
theorem routeAIRequest_deep_path_witness :
    matchesKeyword "plan my day" = true ∧
    routeAIRequest (fun _ => "hi") (fun _ => "deep")
        { userId := "u1", input := "plan my day", language := none } =
      ("[Strategist] deep", [Backend.strategist]) :=
  ⟨by decide,
   routeAIRequest_deep_path (fun _ => "hi") (fun _ => "deep")
     { userId := "u1", input := "plan my day", language := none }
     (Or.inr (by decide))⟩

/-- C9: for every inference-endpoint behaviour and every request, the composed
router returns a string — the backend helpers turn every endpoint failure into
a fallback string — and exactly one of the two branches is taken: the result
is the Qwen-tagged fast reply with trace `[Backend.qwen]` when the fast-path
guard holds, and the Strategist-tagged deep reply with trace
`[Backend.strategist]` otherwise. -/
theorem routeAIRequest_total (endpoint : InferenceOracle) (req : AIRequest) :
    ∃ s : String,
      (isFastPath req.input = true ∧
        routeAIRequestFull endpoint req = ("[Qwen] " ++ s, [Backend.qwen])) ∨
      (isFastPath req.input = false ∧
        routeAIRequestFull endpoint req =
          ("[Strategist] " ++ s, [Backend.strategist])) := by
  cases h : isFastPath req.input
  · exact ⟨(askStrategist endpoint req).1,
      Or.inr ⟨rfl, by simp [routeAIRequestFull, routeAIRequest, h]⟩⟩
  · exact ⟨(askQwen endpoint req).1,
      Or.inl ⟨rfl, by simp [routeAIRequestFull, routeAIRequest, h]⟩⟩

/-- C6: both backend helpers send exactly the payload
`{model, prompt := Respond in language. input, stream := false}` with the
language defaulting to `en` (model `qwen:0.5b` for the fast helper, `mixtral`
for the deep one), and each returns the response field of the reply when it
is present and non-empty, or its fixed fallback string when the call fails. -/
theorem backend_payload_exact (endpoint : InferenceOracle) (req : AIRequest) :
    (askQwen endpoint req).2 =
      { model := "qwen:0.5b"
        prompt := "Respond in " ++ req.language.getD "en" ++ ". " ++ req.input
        stream := false } ∧
    (askStrategist endpoint req).2 =
      { model := "mixtral"
        prompt := "Respond in " ++ req.language.getD "en" ++ ". " ++ req.input
        stream := false } ∧
    (endpoint (qwenPayload req) = none →
      (askQwen endpoint req).1 = "Qwen unavailable.") ∧
    (endpoint (strategistPayload req) = none →
      (askStrategist endpoint req).1 = "Strategist unavailable.") ∧
    (∀ r : String, endpoint (qwenPayload req) = some (some r) →
      r.isEmpty = false → (askQwen endpoint req).1 = r) ∧
    (∀ r : String, endpoint (strategistPayload req) = some (some r) →
      r.isEmpty = false → (askStrategist endpoint req).1 = r) := by
  refine ⟨rfl, rfl, ?_, ?_, ?_, ?_⟩
  · intro h; simp [askQwen, h]
  · intro h; simp [askStrategist, h]
  · intro r h hr; simp [askQwen, h, hr]
  · intro r h hr; simp [askStrategist, h, hr]

/-- Witness for C6: a failing endpoint yields the Qwen fallback, and the
payload sent for a concrete request is exactly the specified record. -/
theorem backend_payload_exact_witness :
    (askQwen (fun _ => none) { userId := "u", input := "hi", language := none }).1 =
      "Qwen unavailable." ∧
    (askQwen (fun _ => none) { userId := "u", input := "hi", language := none }).2 =
      { model := "qwen:0.5b", prompt := "Respond in en. hi", stream := false } :=
  ⟨(backend_payload_exact (fun _ => none)
      { userId := "u", input := "hi", language := none }).2.2.1 rfl,
   (backend_payload_exact (fun _ => none)
      { userId := "u", input := "hi", language := none }).1⟩

/-- C3: folding a change event into the contacts list — an INSERT event with
record `n` prepends `n` and truncates to the 100-entry cap; a DELETE event
with old record `o` keeps exactly the contacts whose id differs from `o.id`;
an UPDATE event with record `n` replaces each contact whose id equals `n.id`
by `n` and keeps the rest; any other event type leaves the state unchanged. -/
theorem applyContactsEvent_spec (prev : List Contact) (o n : Contact)
    (anyOld anyNew : Option Contact) (ev : String)
    (hev : ev ≠ "INSERT" ∧ ev ≠ "DELETE" ∧ ev ≠ "UPDATE") :
    (applyContactsEvent prev { eventType := "INSERT", old := anyOld, new := some n } =
        n :: prev.take 99 ∧
      (applyContactsEvent prev
        { eventType := "INSERT", old := anyOld, new := some n }).length ≤ 100) ∧
    (∀ c : Contact,
      c ∈ applyContactsEvent prev { eventType := "DELETE", old := some o, new := anyNew } ↔
        c ∈ prev ∧ c.id ≠ o.id) ∧
    (applyContactsEvent prev { eventType := "UPDATE", old := anyOld, new := some n } =
      prev.map (fun c => if c.id = n.id then n else c)) ∧
    (applyContactsEvent prev { eventType := ev, old := anyOld, new := anyNew } = prev) := by
  refine ⟨⟨?_, ?_⟩, ?_, ?_, ?_⟩
  · simp [applyContactsEvent]
  · simp [applyContactsEvent, List.length_take]
  · intro c
    simp [applyContactsEvent, List.mem_filter]
  · simp [applyContactsEvent]
  · simp [applyContactsEvent, hev.1, hev.2.1, hev.2.2]

/-- Witness for C3 on a concrete two-element state: an INSERT prepends, a
DELETE removes the matching id, and an unknown event type is a no-op. -/
theorem applyContactsEvent_spec_witness :
    (("PING" : String) ≠ "INSERT" ∧ ("PING" : String) ≠ "DELETE" ∧
      ("PING" : String) ≠ "UPDATE") ∧
    applyContactsEvent [{ id := 1, fields := "a" }, { id := 2, fields := "b" }]
        { eventType := "INSERT", old := none, new := some { id := 3, fields := "c" } } =
      [{ id := 3, fields := "c" }, { id := 1, fields := "a" }, { id := 2, fields := "b" }] ∧
    applyContactsEvent [{ id := 1, fields := "a" }, { id := 2, fields := "b" }]
        { eventType := "PING", old := none, new := none } =
      [{ id := 1, fields := "a" }, { id := 2, fields := "b" }] := by
  have h := applyContactsEvent_spec
    [{ id := 1, fields := "a" }, { id := 2, fields := "b" }]
    { id := 1, fields := "a" } { id := 3, fields := "c" } none none "PING"
    (by exact ⟨by decide, by decide, by decide⟩)
  exact ⟨⟨by decide, by decide, by decide⟩, by rw [h.1.1]; rfl, h.2.2.2⟩

/-- C4: whenever the bots-table lookup finds a row, the checkout handler
creates a session whose single line item has `unit_amount = price * 100`. -/
theorem handler_unit_amount (bots : List Bot) (bot_id : Nat) (user_id : String)
    (bot : Bot) (h : bots.find? (fun b => b.id == bot_id) = some bot) :
    ∃ s : CheckoutSession, handler bots bot_id user_id = some s ∧
      s.line_items.map LineItem.unit_amount = [bot.price * 100] := by
  exact ⟨checkoutSessionFor bot bot_id user_id, by simp [handler, h], rfl⟩

/-- Witness for C4: a bot priced 10 yields a session with unit amount 1000. -/
theorem handler_unit_amount_witness :
    ∃ s : CheckoutSession,
      handler [{ id := 7, title := "t", description := "d", price := 10 }] 7 "u" =
        some s ∧
      s.line_items.map LineItem.unit_amount = [1000] := by
  obtain ⟨s, hs, hu⟩ := handler_unit_amount
    [{ id := 7, title := "t", description := "d", price := 10 }] 7 "u"
    { id := 7, title := "t", description := "d", price := 10 } rfl
  exact ⟨s, hs, by rw [hu]; norm_num⟩

/-- C10: when no row of the bots table matches `bot_id`, the handler
dereferences the null lookup result and throws, sending no response —
modelled as returning `none` rather than any session payload. -/
theorem handler_missing_bot (bots : List Bot) (bot_id : Nat) (user_id : String)
    (h : bots.find? (fun b => b.id == bot_id) = none) :
    handler bots bot_id user_id = none := by
  simp [handler, h]

/-- Witness for C10 at the empty bots table. -/
theorem handler_missing_bot_witness :
    handler ([] : List Bot) 1 "u" = none :=
  handler_missing_bot [] 1 "u" rfl

/-- C5: a lead request whose email field or first_name field is missing or
the empty string is rejected with the 400 error `missing_required_fields`,
and the effect trace is empty: no contact is created or updated and no
webhook fires. -/
theorem create_contact_missing_fields (existingByEmail : String → Option Nat)
    (newId : Nat) (p : LeadParams)
    (h : (p.email = none ∨ p.email = some "") ∨
      (p.first_name = none ∨ p.first_name = some "")) :
    create_contact existingByEmail newId p =
      (LeadResponse.err "missing_required_fields" 400, []) := by
  have hempty : (phpEmpty p.email || phpEmpty p.first_name) = true := by
    rcases h with h | h <;> rcases h with h | h <;> simp [phpEmpty, h]
  simp [create_contact, hempty]

/-- Witness for C5: a request with a first name but no email is rejected
with status 400 and produces no effects. -/
theorem create_contact_missing_fields_witness :
    create_contact (fun _ => none) 5 { email := none, first_name := some "Ann" } =
      (LeadResponse.err "missing_required_fields" 400, []) :=
  create_contact_missing_fields (fun _ => none) 5
    { email := none, first_name := some "Ann" } (Or.inl (Or.inl rfl))

/-- Attempt outcomes refuting C7 as stated: the first attempt yields a 404
(a non-5xx error response), the second an ok JSON response. -/
def nonFiveHundredOutcomes : Nat → FetchOutcome := fun i =>
  if i = 0 then FetchOutcome.response 404 true "x"
  else FetchOutcome.response 200 true "ok"

/-- Counterexample to C7 as stated: the first attempt returns a 404, which is
a non-ok, non-5xx response, yet `wpFetch` does not throw — it retries and
resolves with the second attempt's body. The non-5xx HTTP error raised inside
the try block lands in the catch, which rethrows only on the last attempt or
for an AbortError, so the loop continues. -/
theorem wpFetch_retries_after_404 :
    nonFiveHundredOutcomes 0 = FetchOutcome.response 404 true "x" ∧
    httpOk 404 = false ∧ ¬ 500 ≤ 404 ∧
    wpFetch nonFiveHundredOutcomes = (WpResult.ok "ok", []) :=
  ⟨rfl, rfl, by decide, by decide⟩

/-- C7 amended: one trip of the `wpFetch` loop (default `retries = 3`, so
four attempts, each under the 10 s abort timer) behaves as follows — an ok
JSON response resolves with its body; a non-ok 5xx status with retries
remaining waits `2^i * 1000` ms and retries; a non-ok status below 500 with
retries remaining retries immediately with no wait, because the thrown HTTP
error is caught by the loop body; an AbortError timeout with retries
remaining throws Request timeout without retrying; a network error with
retries remaining retries immediately; on the last attempt a non-ok status
throws the HTTP error. `wpFetch` itself starts at attempt 0 with enough fuel
for all four trips. -/
theorem wpFetch_retry_policy (outcomes : Nat → FetchOutcome) (i fuel : Nat) :
    (∀ status isJson body, outcomes i = FetchOutcome.response status isJson body →
      httpOk status = true → isJson = true →
      wpFetchAux outcomes 3 i (fuel + 1) = (WpResult.ok body, [])) ∧
    (∀ status isJson body, outcomes i = FetchOutcome.response status isJson body →
      httpOk status = false → 500 ≤ status → i < 3 →
      wpFetchAux outcomes 3 i (fuel + 1) =
        ((wpFetchAux outcomes 3 (i + 1) fuel).1,
         2 ^ i * 1000 :: (wpFetchAux outcomes 3 (i + 1) fuel).2)) ∧
    (∀ status isJson body, outcomes i = FetchOutcome.response status isJson body →
      httpOk status = false → status < 500 → i < 3 →
      wpFetchAux outcomes 3 i (fuel + 1) = wpFetchAux outcomes 3 (i + 1) fuel) ∧
    (outcomes i = FetchOutcome.timeout → i < 3 →
      wpFetchAux outcomes 3 i (fuel + 1) = (WpResult.err "Request timeout", [])) ∧
    (outcomes i = FetchOutcome.netError → i < 3 →
      wpFetchAux outcomes 3 i (fuel + 1) = wpFetchAux outcomes 3 (i + 1) fuel) ∧
    (∀ status isJson body, outcomes 3 = FetchOutcome.response status isJson body →
      httpOk status = false →
      wpFetchAux outcomes 3 3 (fuel + 1) =
        (WpResult.err ("HTTP " ++ toString status), [])) ∧
    wpFetch outcomes = wpFetchAux outcomes 3 0 4 := by
  refine ⟨?_, ?_, ?_, ?_, ?_, ?_, rfl⟩
  · intro status isJson body h hok hjson
    simp [wpFetchAux, h, hok, hjson]
  · intro status isJson body h hok h5 hi
    have hne : i ≠ 3 := Nat.ne_of_lt hi
    simp [wpFetchAux, h, hok, h5, hi, hne]
  · intro status isJson body h hok h5 hi
    have hne : i ≠ 3 := Nat.ne_of_lt hi
    have h5n : ¬ 500 ≤ status := Nat.not_le.mpr h5
    simp [wpFetchAux, h, hok, h5n, hne]
  · intro h hi
    have hne : i ≠ 3 := Nat.ne_of_lt hi
    simp [wpFetchAux, h, hne]
  · intro h hi
    have hne : i ≠ 3 := Nat.ne_of_lt hi
    simp [wpFetchAux, h, hne]
  · intro status isJson body h hok
    simp [wpFetchAux, h, hok]

/-- Attempt outcomes for the C7 witness: a 503 on the first attempt, then an
ok JSON response. -/
def backoffOutcomes : Nat → FetchOutcome := fun i =>
  if i = 0 then FetchOutcome.response 503 true "b"
  else FetchOutcome.response 200 true "ok"

/-- Witness for the amended C7 at the 5xx branch: a 503 on attempt 0 makes
the loop wait `2^0 * 1000` ms and recurse into attempt 1. -/
theorem wpFetch_retry_policy_witness :
    wpFetchAux backoffOutcomes 3 0 4 =
      ((wpFetchAux backoffOutcomes 3 1 3).1,
       2 ^ 0 * 1000 :: (wpFetchAux backoffOutcomes 3 1 3).2) :=
  (wpFetch_retry_policy backoffOutcomes 0 3).2.1 503 true "b" rfl rfl
    (by decide) (by decide)

/-- C8: the settle-all merge of the three WordPress fetches keeps every
fulfilled result and replaces every rejected one by its empty default, so
one failed fetch never discards the others. -/
theorem settleWpResults_spec (camp funl : Option (List String))
    (anal : Option (List (String × String))) :
    (∀ c, camp = some c → (settleWpResults camp funl anal).campaigns = c) ∧
    (camp = none → (settleWpResults camp funl anal).campaigns = []) ∧
    (∀ f, funl = some f → (settleWpResults camp funl anal).funnels = f) ∧
    (funl = none → (settleWpResults camp funl anal).funnels = []) ∧
    (∀ a, anal = some a → (settleWpResults camp funl anal).analytics = a) ∧
    (anal = none → (settleWpResults camp funl anal).analytics = []) := by
  refine ⟨?_, ?_, ?_, ?_, ?_, ?_⟩ <;> intro h <;> intros <;>
    simp_all [settleWpResults]

/-- Witness for C8: the campaigns fetch succeeds while funnels and analytics
fail, and the merged state keeps the campaigns and defaults the rest. -/
theorem settleWpResults_spec_witness :
    (settleWpResults (some ["c1"]) none none).campaigns = ["c1"] ∧
    (settleWpResults (some ["c1"]) none none).funnels = [] ∧
    (settleWpResults (some ["c1"]) none none).analytics = [] :=
  ⟨(settleWpResults_spec (some ["c1"]) none none).1 ["c1"] rfl,
   (settleWpResults_spec (some ["c1"]) none none).2.2.2.1 rfl,
   (settleWpResults_spec (some ["c1"]) none none).2.2.2.2.2 rfl⟩

end WordPressRender
